import Mathlib

/-!
Verification development for the repkg-rs repository: a shallow embedding of
the PKG package reader, the TEX texture reader, the mipmap decompressor and
the texture-to-image converter, together with theorems about the behaviour
of those operations.

Byte streams are modelled as lists of naturals (each entry one byte); the
readers consume from the front of the list, mirroring the sequential
`Read + Seek` cursor of the source.  Machine integers are modelled as `Nat`
(u32 fields) and `Int` (i32 fields, decoded from the u32 bit pattern).
External crates (lz4_flex, texture2ddecoder, the image codec library) are
not part of the repository; they are modelled as parameter structures whose
fields are uninterpreted functions, constrained only by facts the Rust types
force (an in-place decode into a `&mut [u32]` slice cannot change the slice
length).
-/

/-- Kinds of the error taxonomy of `error.rs`.  String payloads carry the
static stem of the formatted message of the source (dynamic parts elided).
`ioUnexpectedEof` models `Error::Io` wrapping a `std::io::Error` of kind
`UnexpectedEof`, which is what `read_exact` and the byteorder reads produce
on a short read. -/
inductive Err where
  | ioUnexpectedEof : Err
  | invalidPkgMagic (found : List Nat) : Err
  | invalidTexMagic (expected found : List Nat) : Err
  | unsupportedContainerVersion (version : List Nat) : Err
  | unsupportedMipmapFormat (message : String) : Err
  | lz4Decompression (message : String) : Err
  | dxtDecompression (details : String) : Err
  | imageConversion (message : String) : Err
  | invalidData (message : String) : Err
  | safetyLimit (message : String) : Err
  | stringEncoding : Err
deriving DecidableEq

/-- Byte streams: the unread remainder of the input, one `Nat` per byte. -/
abbrev Bytes := List Nat

/-- Sequencing of fallible reads; explicit so proofs can unfold it. -/
def eBind {α β : Type} (x : Except Err α) (f : α → Except Err β) : Except Err β :=
  match x with
  | .error e => .error e
  | .ok a => f a

/-- Read one byte (`read_u8`); a short read is an io UnexpectedEof. -/
def readU8 (s : Bytes) : Except Err (Nat × Bytes) :=
  match s with
  | [] => .error .ioUnexpectedEof
  | b :: rest => .ok (b, rest)

/-- Read a little-endian u32 (`read_u32::<LittleEndian>`). -/
def readU32 (s : Bytes) : Except Err (Nat × Bytes) :=
  match s with
  | b0 :: b1 :: b2 :: b3 :: rest =>
      .ok (b0 + 256 * b1 + 65536 * b2 + 16777216 * b3, rest)
  | _ => .error .ioUnexpectedEof

/-- Value of a u32 bit pattern as an i32. -/
def i32ofU32 (u : Nat) : Int :=
  if u < 2147483648 then (u : Int) else (u : Int) - 4294967296

/-- Read a little-endian i32 (`read_i32::<LittleEndian>`). -/
def readI32 (s : Bytes) : Except Err (Int × Bytes) :=
  eBind (readU32 s) fun p => .ok (i32ofU32 p.1, p.2)

/-- Read exactly `n` bytes (`read_exact`); failing with the io UnexpectedEof
kind when fewer are available. -/
def readExact (n : Nat) (s : Bytes) : Except Err (Bytes × Bytes) :=
  if n ≤ s.length then .ok (s.take n, s.drop n) else .error .ioUnexpectedEof

/-- Continuation byte test of UTF-8 (0x80..0xBF). -/
def utf8Cont (c : Nat) : Bool := 128 ≤ c ∧ c ≤ 191

/-- Validity of a byte list as UTF-8, the check performed by Rust
`String::from_utf8`: ASCII, two-byte C2..DF, three-byte E0/E1..EC/ED/EE..EF
with the overlong and surrogate exclusions, four-byte F0/F1..F3/F4 with the
overlong and out-of-range exclusions. -/
def isValidUtf8 : Bytes → Bool
  | [] => true
  | b :: rest =>
    if b < 128 then isValidUtf8 rest
    else if 194 ≤ b ∧ b ≤ 223 then
      match rest with
      | c1 :: r => utf8Cont c1 && isValidUtf8 r
      | [] => false
    else if b = 224 then
      match rest with
      | c1 :: c2 :: r => (decide (160 ≤ c1 ∧ c1 ≤ 191)) && utf8Cont c2 && isValidUtf8 r
      | _ => false
    else if (225 ≤ b ∧ b ≤ 236) ∨ b = 238 ∨ b = 239 then
      match rest with
      | c1 :: c2 :: r => utf8Cont c1 && utf8Cont c2 && isValidUtf8 r
      | _ => false
    else if b = 237 then
      match rest with
      | c1 :: c2 :: r => (decide (128 ≤ c1 ∧ c1 ≤ 159)) && utf8Cont c2 && isValidUtf8 r
      | _ => false
    else if b = 240 then
      match rest with
      | c1 :: c2 :: c3 :: r =>
          (decide (144 ≤ c1 ∧ c1 ≤ 191)) && utf8Cont c2 && utf8Cont c3 && isValidUtf8 r
      | _ => false
    else if 241 ≤ b ∧ b ≤ 243 then
      match rest with
      | c1 :: c2 :: c3 :: r => utf8Cont c1 && utf8Cont c2 && utf8Cont c3 && isValidUtf8 r
      | _ => false
    else if b = 244 then
      match rest with
      | c1 :: c2 :: c3 :: r =>
          (decide (128 ≤ c1 ∧ c1 ≤ 143)) && utf8Cont c2 && utf8Cont c3 && isValidUtf8 r
      | _ => false
    else false

/-- Collect bytes of a null-terminated string, at most `fuel` of them;
stops (consuming the terminator) at the first zero byte, stops without
error after `fuel` bytes, and fails with the io UnexpectedEof kind when the
stream ends first — the loop of `read_null_terminated_string`. -/
def readNullTermBytes : Nat → Bytes → Except Err (Bytes × Bytes)
  | 0, s => .ok ([], s)
  | _ + 1, [] => .error .ioUnexpectedEof
  | fuel + 1, b :: rest =>
    if b = 0 then .ok ([], rest)
    else
      match readNullTermBytes fuel rest with
      | .ok (acc, s) => .ok (b :: acc, s)
      | .error e => .error e

/-- The reader helper `read_null_terminated_string`: bounded null-terminated
bytes followed by the `String::from_utf8` validation. -/
def read_null_terminated_string (max_length : Nat) (s : Bytes) :
    Except Err (Bytes × Bytes) :=
  match readNullTermBytes max_length s with
  | .ok (bs, rest) => if isValidUtf8 bs then .ok (bs, rest) else .error .stringEncoding
  | .error e => .error e

/-- Little-endian encoding of a u32 value, for building concrete streams. -/
def le32 (n : Nat) : Bytes :=
  [n % 256, n / 256 % 256, n / 65536 % 256, n / 16777216 % 256]

/-- Texture flags (`TexFlags`), kept as the raw u32 bitmask. -/
abbrev TexFlags := Nat

/-- The bits defined by the `bitflags!` block of `enums.rs`. -/
def TexFlags.NO_INTERPOLATION : Nat := 1
def TexFlags.CLAMP_UVS : Nat := 2
def TexFlags.IS_GIF : Nat := 4
def TexFlags.UNK3 : Nat := 8
def TexFlags.UNK4 : Nat := 16
def TexFlags.IS_VIDEO_TEXTURE : Nat := 32
def TexFlags.UNK6 : Nat := 64
def TexFlags.UNK7 : Nat := 128

/-- `bitflags` containment: all bits of the flag are set. -/
def TexFlags.containsFlag (flags bit : Nat) : Bool := flags &&& bit = bit

/-- `TexFlags::from_bits_truncate`: keep only the eight defined bits
(mask 0xFF), implemented as the remainder modulo 256. -/
def TexFlags.from_bits_truncate (raw : Nat) : Nat := raw % 256

/-- Pixel format of the texture header (`TexFormat`). -/
inductive TexFormat where
  | RGBA8888 | DXT5 | DXT3 | DXT1 | R8 | RG88
  | Unknown (value : Nat)
deriving DecidableEq

/-- `From<u32> for TexFormat`. -/
def TexFormat.ofU32 (value : Nat) : TexFormat :=
  if value = 0 then .RGBA8888
  else if value = 4 then .DXT5
  else if value = 6 then .DXT3
  else if value = 7 then .DXT1
  else if value = 8 then .R8
  else if value = 9 then .RG88
  else .Unknown value

/-- Format of mipmap data (`MipmapFormat`). -/
inductive MipmapFormat where
  | Invalid
  | RGBA8888 | R8 | RG88
  | CompressedDXT5 | CompressedDXT3 | CompressedDXT1
  | VideoMp4
  | ImageBMP | ImageJPEG | ImagePNG | ImageGIF | ImageTGA | ImageDDS
  | ImageTIFF | ImageWEBP
deriving DecidableEq

/-- `MipmapFormat::is_compressed`. -/
def MipmapFormat.is_compressed : MipmapFormat → Bool
  | .CompressedDXT1 | .CompressedDXT3 | .CompressedDXT5 => true
  | _ => false

/-- `MipmapFormat::is_raw`. -/
def MipmapFormat.is_raw : MipmapFormat → Bool
  | .RGBA8888 | .R8 | .RG88 => true
  | _ => false

/-- `MipmapFormat::is_image`. -/
def MipmapFormat.is_image : MipmapFormat → Bool
  | .ImageBMP | .ImageJPEG | .ImagePNG | .ImageGIF | .ImageTGA | .ImageDDS
  | .ImageTIFF | .ImageWEBP => true
  | _ => false

/-- `MipmapFormat::bytes_per_pixel`. -/
def MipmapFormat.bytes_per_pixel : MipmapFormat → Option Nat
  | .RGBA8888 => some 4
  | .R8 => some 1
  | .RG88 => some 2
  | _ => none

/-- Container version (`TexImageContainerVersion`); the unknown case keeps
the magic bytes. -/
inductive TexImageContainerVersion where
  | Version1 | Version2 | Version3 | Version4
  | Unknown (magic : List Nat)
deriving DecidableEq

/-- Magic byte constants (UTF-8 bytes of the ASCII strings of the source). -/
def texb0001Bytes : Bytes := [84, 69, 88, 66, 48, 48, 48, 49]
def texb0002Bytes : Bytes := [84, 69, 88, 66, 48, 48, 48, 50]
def texb0003Bytes : Bytes := [84, 69, 88, 66, 48, 48, 48, 51]
def texb0004Bytes : Bytes := [84, 69, 88, 66, 48, 48, 48, 52]
def texv0005Bytes : Bytes := [84, 69, 88, 86, 48, 48, 48, 53]
def texi0001Bytes : Bytes := [84, 69, 88, 73, 48, 48, 48, 49]
def texs0001Bytes : Bytes := [84, 69, 88, 83, 48, 48, 48, 49]
def texs0002Bytes : Bytes := [84, 69, 88, 83, 48, 48, 48, 50]
def texs0003Bytes : Bytes := [84, 69, 88, 83, 48, 48, 48, 51]
def pkgvBytes : Bytes := [80, 75, 71, 86]
def ftypBytes : Bytes := [102, 116, 121, 112]

/-- `TexImageContainerVersion::from_magic`. -/
def TexImageContainerVersion.from_magic (magic : Bytes) : TexImageContainerVersion :=
  if magic = texb0001Bytes then .Version1
  else if magic = texb0002Bytes then .Version2
  else if magic = texb0003Bytes then .Version3
  else if magic = texb0004Bytes then .Version4
  else .Unknown magic

/-- `TexImageContainerVersion::is_supported`. -/
def TexImageContainerVersion.is_supported : TexImageContainerVersion → Bool
  | .Unknown _ => false
  | _ => true

/-- FreeImage format codes (`FreeImageFormat`). -/
inductive FreeImageFormat where
  | Unknown
  | BMP | ICO | JPEG | JNG | KOALA | LBM | MNG | PBM | PBMRAW | PCD
  | PCX | PGM | PGMRAW | PNG | PPM | PPMRAW | RAS | TARGA | TIFF | WBMP
  | PSD | CUT | XBM | XPM | DDS | GIF | HDR | FAXG3 | SGI | EXR
  | J2K | JP2 | PFM | PICT | RAW | WEBP | JXR | Mp4
deriving DecidableEq

/-- `From<i32> for FreeImageFormat`; every value outside -1..36 (including
37, the container never stores the MP4 sentinel) decodes to Unknown. -/
def FreeImageFormat.ofI32 (value : Int) : FreeImageFormat :=
  if value = -1 then .Unknown
  else if value = 0 then .BMP
  else if value = 1 then .ICO
  else if value = 2 then .JPEG
  else if value = 3 then .JNG
  else if value = 4 then .KOALA
  else if value = 5 then .LBM
  else if value = 6 then .MNG
  else if value = 7 then .PBM
  else if value = 8 then .PBMRAW
  else if value = 9 then .PCD
  else if value = 10 then .PCX
  else if value = 11 then .PGM
  else if value = 12 then .PGMRAW
  else if value = 13 then .PNG
  else if value = 14 then .PPM
  else if value = 15 then .PPMRAW
  else if value = 16 then .RAS
  else if value = 17 then .TARGA
  else if value = 18 then .TIFF
  else if value = 19 then .WBMP
  else if value = 20 then .PSD
  else if value = 21 then .CUT
  else if value = 22 then .XBM
  else if value = 23 then .XPM
  else if value = 24 then .DDS
  else if value = 25 then .GIF
  else if value = 26 then .HDR
  else if value = 27 then .FAXG3
  else if value = 28 then .SGI
  else if value = 29 then .EXR
  else if value = 30 then .J2K
  else if value = 31 then .JP2
  else if value = 32 then .PFM
  else if value = 33 then .PICT
  else if value = 34 then .RAW
  else if value = 35 then .WEBP
  else if value = 36 then .JXR
  else .Unknown

/-- `FreeImageFormat::to_mipmap_format`. -/
def FreeImageFormat.to_mipmap_format : FreeImageFormat → MipmapFormat
  | .BMP => .ImageBMP
  | .JPEG => .ImageJPEG
  | .PNG => .ImagePNG
  | .GIF => .ImageGIF
  | .TARGA => .ImageTGA
  | .DDS => .ImageDDS
  | .TIFF => .ImageTIFF
  | .WEBP => .ImageWEBP
  | .Mp4 => .VideoMp4
  | _ => .Invalid

/-- A single mipmap level (`TexMipmap` of repkg-core). -/
structure TexMipmap where
  width : Nat
  height : Nat
  format : MipmapFormat
  is_lz4_compressed : Bool
  decompressed_bytes_count : Nat
  bytes : Bytes
deriving DecidableEq

/-- `TexMipmap::has_data`. -/
def TexMipmap.has_data (m : TexMipmap) : Bool := m.bytes ≠ []

/-- A single image (`TexImage`). -/
structure TexImage where
  mipmaps : List TexMipmap
deriving DecidableEq

/-- `TexImage::first_mipmap`. -/
def TexImage.first_mipmap (img : TexImage) : Option TexMipmap := img.mipmaps.head?

/-- The image container (`TexImageContainer`). -/
structure TexImageContainer where
  version : TexImageContainerVersion
  image_format : FreeImageFormat
  images : List TexImage
deriving DecidableEq

/-- `TexImageContainer::mipmap_format`: the image-kind wins when it maps to
a known mipmap format, otherwise derive from the texture format. -/
def TexImageContainer.mipmap_format (c : TexImageContainer) (tex_format : TexFormat) :
    MipmapFormat :=
  let from_image_format := c.image_format.to_mipmap_format
  if from_image_format ≠ MipmapFormat.Invalid then from_image_format
  else
    match tex_format with
    | .RGBA8888 => .RGBA8888
    | .DXT1 => .CompressedDXT1
    | .DXT3 => .CompressedDXT3
    | .DXT5 => .CompressedDXT5
    | .R8 => .R8
    | .RG88 => .RG88
    | .Unknown _ => .Invalid

/-- The texture header (`TexHeader`). -/
structure TexHeader where
  format : TexFormat
  flags : TexFlags
  texture_width : Nat
  texture_height : Nat
  image_width : Nat
  image_height : Nat
  unk_int0 : Nat
deriving DecidableEq

/-- `TexHeader::needs_crop`. -/
def TexHeader.needs_crop (h : TexHeader) : Bool :=
  h.image_width ≠ h.texture_width ∨ h.image_height ≠ h.texture_height

/-- `TexHeader::crop_dimensions`. -/
def TexHeader.crop_dimensions (h : TexHeader) : Nat × Nat :=
  (h.image_width, h.image_height)

/-- A frame record (`TexFrameInfo`).  The f32 fields are stored as their raw
little-endian u32 bit patterns: no claim interprets them numerically and the
reader only stores them. -/
structure TexFrameInfo where
  image_id : Nat
  frametime : Nat
  x : Nat
  y : Nat
  width : Nat
  height : Nat
  width_y : Nat
  height_x : Nat
deriving DecidableEq

/-- The frame-info container (`TexFrameInfoContainer`). -/
structure TexFrameInfoContainer where
  gif_width : Nat
  gif_height : Nat
  frames : List TexFrameInfo
deriving DecidableEq

/-- A parsed texture (`Tex`); the magic strings are kept as UTF-8 bytes. -/
structure Tex where
  magic1 : Bytes
  magic2 : Bytes
  header : TexHeader
  images_container : TexImageContainer
  frame_info_container : Option TexFrameInfoContainer
deriving DecidableEq

/-- `Tex::is_gif`. -/
def Tex.is_gif (tex : Tex) : Bool :=
  TexFlags.containsFlag tex.header.flags TexFlags.IS_GIF

/-- `Tex::is_video`. -/
def Tex.is_video (tex : Tex) : Bool :=
  TexFlags.containsFlag tex.header.flags TexFlags.IS_VIDEO_TEXTURE

/-- `Tex::first_image`. -/
def Tex.first_image (tex : Tex) : Option TexImage :=
  tex.images_container.images.head?

/-- `tex.first_image().and_then(|img| img.first_mipmap())`, the composition
used by the converter. -/
def first_mipmap_of (tex : Tex) : Option TexMipmap :=
  tex.first_image.bind TexImage.first_mipmap

/-- Entry kind (`EntryType`). -/
inductive EntryType where
  | Tex | Json | Shader | Other
deriving DecidableEq

/-- ASCII lowercase of one byte.  `EntryType::from_path` lowercases with
Rust `str::to_lowercase`; on ASCII input the two lowercasings agree, and no
non-ASCII character lowercases into ASCII text ending in one of the
compared suffixes. -/
def asciiLower (b : Nat) : Nat := if 65 ≤ b ∧ b ≤ 90 then b + 32 else b

/-- Suffix test on byte lists (`str::ends_with`). -/
def endsWithBytes (l suf : Bytes) : Bool := l.drop (l.length - suf.length) = suf

/-- `EntryType::from_path` over the UTF-8 bytes of the path. -/
def EntryType.from_path (path : Bytes) : EntryType :=
  let lower := path.map asciiLower
  if endsWithBytes lower [46, 116, 101, 120] then .Tex
  else if endsWithBytes lower [46, 106, 115, 111, 110] then .Json
  else if endsWithBytes lower [46, 118, 101, 114, 116]
       ∨ endsWithBytes lower [46, 102, 114, 97, 103] then .Shader
  else .Other

/-- A package entry (`PackageEntry`); the path is kept as UTF-8 bytes. -/
structure PackageEntry where
  full_path : Bytes
  offset : Nat
  length : Nat
  bytes : Option Bytes
  entry_type : EntryType
deriving DecidableEq

/-- A parsed package (`Package`). -/
structure Package where
  magic : Bytes
  header_size : Nat
  entries : List PackageEntry
deriving DecidableEq

/-- The external decompression crates, modelled as uninterpreted functions.
`lz4_decompress` models `lz4_flex::decompress(input, expected_size)`.
`decode_bc1` and `decode_bc3` model `texture2ddecoder::decode_bc1` and
`decode_bc3`: they receive the input bytes, the dimensions and the contents
of the caller-allocated output buffer (a `&mut [u32]` slice of
`width * height` zeros in the source) and return the final buffer contents
on success.  Because an in-place mutation of a Rust slice cannot change its
length, any model must satisfy the two length-preservation facts. -/
structure ExtCodecs where
  lz4_decompress : Bytes → Nat → Except String Bytes
  decode_bc1 : Bytes → Nat → Nat → List Nat → Except String (List Nat)
  decode_bc3 : Bytes → Nat → Nat → List Nat → Except String (List Nat)
  bc1_length : ∀ b w h buf out, decode_bc1 b w h buf = .ok out → out.length = buf.length
  bc3_length : ∀ b w h buf out, decode_bc3 b w h buf = .ok out → out.length = buf.length

/-- `u32_to_rgba_bytes`: serialise each u32 pixel little-endian as R,G,B,A.
The source builds the list with an accumulating loop over the vector; this
recursion produces the same list. -/
def u32_to_rgba_bytes : List Nat → Bytes
  | [] => []
  | p :: rest =>
      p % 256 :: p / 256 % 256 :: p / 65536 % 256 :: p / 16777216 % 256 ::
        u32_to_rgba_bytes rest

/-- `MipmapDecompressor::decompress_lz4`; note the early success return when
`decompressed_bytes_count` is zero, which leaves the mipmap (and its
`is_lz4_compressed` flag) untouched. -/
def MipmapDecompressor.decompress_lz4 (C : ExtCodecs) (m : TexMipmap) :
    Except Err TexMipmap :=
  if m.decompressed_bytes_count = 0 then .ok m
  else
    match C.lz4_decompress m.bytes m.decompressed_bytes_count with
    | .error e => .error (.lz4Decompression e)
    | .ok decompressed =>
        .ok { m with bytes := decompressed, is_lz4_compressed := false }

/-- `MipmapDecompressor::decompress_dxt`. -/
def MipmapDecompressor.decompress_dxt (C : ExtCodecs) (m : TexMipmap) :
    Except Err TexMipmap :=
  let width := m.width
  let height := m.height
  let pixel_count := width * height
  match m.format with
  | .CompressedDXT1 =>
      match C.decode_bc1 m.bytes width height (List.replicate pixel_count 0) with
      | .error e =>
          .error (.dxtDecompression (String.append "DXT1/BC1 decompression failed: " e))
      | .ok output =>
          .ok { m with bytes := u32_to_rgba_bytes output, format := .RGBA8888 }
  | .CompressedDXT3 =>
      .error (.dxtDecompression "DXT3/BC2 decompression not yet supported")
  | .CompressedDXT5 =>
      match C.decode_bc3 m.bytes width height (List.replicate pixel_count 0) with
      | .error e =>
          .error (.dxtDecompression (String.append "DXT5/BC3 decompression failed: " e))
      | .ok output =>
          .ok { m with bytes := u32_to_rgba_bytes output, format := .RGBA8888 }
  | _ => .ok m

/-- `MipmapDecompressor::decompress`: first the LZ4 stage when the flag is
set, then the DXT stage when the (possibly updated) format is
block-compressed. -/
def MipmapDecompressor.decompress (C : ExtCodecs) (m : TexMipmap) :
    Except Err TexMipmap :=
  eBind (if m.is_lz4_compressed then MipmapDecompressor.decompress_lz4 C m else .ok m)
    fun m1 =>
      if m1.format.is_compressed then MipmapDecompressor.decompress_dxt C m1 else .ok m1

/-- `read_length_prefixed_string` of the package reader: u32 length prefix,
limit check, the bytes, and the `String::from_utf8` validation. -/
def read_length_prefixed_string (max_length : Nat) (s : Bytes) :
    Except Err (Bytes × Bytes) :=
  eBind (readU32 s) fun p =>
  if max_length < p.1 then .error (.safetyLimit "String length exceeds maximum")
  else
    eBind (readExact p.1 p.2) fun q =>
    if isValidUtf8 q.1 then .ok (q.1, q.2) else .error .stringEncoding

/-- The directory loop of `PackageReader::read_from`: `entry_count` records
of path, offset and length. -/
def pkgReadEntries : Nat → Bytes → Except Err (List PackageEntry × Bytes)
  | 0, s => .ok ([], s)
  | n + 1, s =>
      eBind (read_length_prefixed_string 4096 s) fun p =>
      eBind (readU32 p.2) fun o =>
      eBind (readU32 o.2) fun l =>
      eBind (pkgReadEntries n l.2) fun rest =>
      .ok ({ full_path := p.1, offset := o.1, length := l.1, bytes := none,
             entry_type := EntryType.from_path p.1 } :: rest.1, rest.2)

/-- The payload pass of `PackageReader::read_from`: for each entry seek to
`data_start + offset` and `read_exact` its length from the original data;
seeking past the end of a cursor is silently allowed, the subsequent
`read_exact` is what fails (io kind UnexpectedEof) when the range does not
fit. -/
def pkgLoadEntryBytes (data : Bytes) (data_start : Nat) :
    List PackageEntry → Except Err (List PackageEntry)
  | [] => .ok []
  | e :: rest =>
      if data_start + e.offset + e.length ≤ data.length then
        eBind (pkgLoadEntryBytes data data_start rest) fun loaded =>
        .ok ({ e with bytes := some ((data.drop (data_start + e.offset)).take e.length) }
              :: loaded)
      else .error .ioUnexpectedEof

/-- `PackageReader::read_from`, over the whole input (the package starts at
position 0 of `data`).  `read_entry_bytes` is the reader mode flag. -/
def PackageReader.read_from (read_entry_bytes : Bool) (data : Bytes) :
    Except Err Package :=
  eBind (read_length_prefixed_string 64 data) fun m =>
  if ¬ (m.1.take 4 = pkgvBytes) then .error (.invalidPkgMagic m.1)
  else
    eBind (readU32 m.2) fun c =>
    if 100000 < c.1 then .error (.safetyLimit "Entry count exceeds maximum")
    else
      eBind (pkgReadEntries c.1 c.2) fun es =>
      let data_start := data.length - es.2.length
      let header_size := data_start
      eBind (if read_entry_bytes then pkgLoadEntryBytes data data_start es.1
             else .ok es.1) fun entries =>
      .ok { magic := m.1, header_size := header_size, entries := entries }

/-- The safety limits of `texture/reader.rs`. -/
def MAX_IMAGE_COUNT : Nat := 1000
def MAX_MIPMAP_COUNT : Nat := 20
def MAX_FRAME_COUNT : Nat := 10000

/-- The two mode flags of `TexReader`. -/
structure TexReaderCfg where
  read_mipmap_bytes : Bool
  decompress_mipmaps : Bool
deriving DecidableEq

/-- `TexReader::new()`: full mode. -/
def TexReaderCfg.full : TexReaderCfg :=
  { read_mipmap_bytes := true, decompress_mipmaps := true }

/-- `TexReader::read_header`: seven consecutive little-endian u32 fields. -/
def TexReader.read_header (s : Bytes) : Except Err (TexHeader × Bytes) :=
  eBind (readU32 s) fun f =>
  eBind (readU32 f.2) fun fl =>
  eBind (readU32 fl.2) fun tw =>
  eBind (readU32 tw.2) fun th =>
  eBind (readU32 th.2) fun iw =>
  eBind (readU32 iw.2) fun ih =>
  eBind (readU32 ih.2) fun unk =>
  .ok ({ format := TexFormat.ofU32 f.1, flags := TexFlags.from_bits_truncate fl.1,
         texture_width := tw.1, texture_height := th.1,
         image_width := iw.1, image_height := ih.1, unk_int0 := unk.1 }, unk.2)

/-- `TexReader::read_mipmap_bytes`: u32 byte count, the stream-length
validation (`file_offset + byte_count > stream_len` is exactly
`byte_count > remaining length` for a front-consuming cursor), then either
a seek forward (headers-only mode, the bytes stay empty) or the payload.
The byte count such a read records separately is not a field of the
repkg-core `TexMipmap` and no claim mentions it, so it is not returned. -/
def TexReader.read_mipmap_bytes (cfg : TexReaderCfg) (s : Bytes) :
    Except Err (Bytes × Bytes) :=
  eBind (readU32 s) fun bc =>
  if bc.2.length < bc.1 then
    .error (.safetyLimit "Mipmap byte count exceeds remaining stream length")
  else if ¬ cfg.read_mipmap_bytes then .ok ([], bc.2.drop bc.1)
  else .ok (bc.2.take bc.1, bc.2.drop bc.1)

/-- `TexReader::read_mipmap_v1`. -/
def TexReader.read_mipmap_v1 (cfg : TexReaderCfg) (s : Bytes) :
    Except Err (TexMipmap × Bytes) :=
  eBind (readU32 s) fun w =>
  eBind (readU32 w.2) fun h =>
  eBind (TexReader.read_mipmap_bytes cfg h.2) fun bs =>
  .ok ({ width := w.1, height := h.1, format := .Invalid,
         is_lz4_compressed := false, decompressed_bytes_count := 0,
         bytes := bs.1 }, bs.2)

/-- `TexReader::read_mipmap_v2_v3`. -/
def TexReader.read_mipmap_v2_v3 (cfg : TexReaderCfg) (s : Bytes) :
    Except Err (TexMipmap × Bytes) :=
  eBind (readU32 s) fun w =>
  eBind (readU32 w.2) fun h =>
  eBind (readU32 h.2) fun lz =>
  eBind (readU32 lz.2) fun dbc =>
  eBind (TexReader.read_mipmap_bytes cfg dbc.2) fun bs =>
  .ok ({ width := w.1, height := h.1, format := .Invalid,
         is_lz4_compressed := lz.1 == 1, decompressed_bytes_count := dbc.1,
         bytes := bs.1 }, bs.2)

/-- `TexReader::read_mipmap_v4`: the four skipped v4-only fields (two u32,
a null-terminated string of at most 4096 bytes, one u32), then the v2/v3
layout. -/
def TexReader.read_mipmap_v4 (cfg : TexReaderCfg) (s : Bytes) :
    Except Err (TexMipmap × Bytes) :=
  eBind (readU32 s) fun p1 =>
  eBind (readU32 p1.2) fun p2 =>
  eBind (read_null_terminated_string 4096 p2.2) fun cj =>
  eBind (readU32 cj.2) fun p3 =>
  TexReader.read_mipmap_v2_v3 cfg p3.2

/-- `TexReader::read_mipmap`: dispatch on the container version. -/
def TexReader.read_mipmap (cfg : TexReaderCfg) (version : TexImageContainerVersion)
    (s : Bytes) : Except Err (TexMipmap × Bytes) :=
  match version with
  | .Version1 => TexReader.read_mipmap_v1 cfg s
  | .Version2 | .Version3 => TexReader.read_mipmap_v2_v3 cfg s
  | .Version4 => TexReader.read_mipmap_v4 cfg s
  | .Unknown m => .error (.unsupportedContainerVersion m)

/-- The mipmap loop of `TexReader::read_image`: read a mipmap, assign the
container-derived format, decompress in full mode when it has data. -/
def TexReader.read_mipmaps (cfg : TexReaderCfg) (C : ExtCodecs)
    (version : TexImageContainerVersion) (mipmap_format : MipmapFormat) :
    Nat → Bytes → Except Err (List TexMipmap × Bytes)
  | 0, s => .ok ([], s)
  | n + 1, s =>
      eBind (TexReader.read_mipmap cfg version s) fun m =>
      let m1 : TexMipmap := { m.1 with format := mipmap_format }
      eBind (if cfg.decompress_mipmaps && m1.has_data then
               MipmapDecompressor.decompress C m1
             else .ok m1) fun m2 =>
      eBind (TexReader.read_mipmaps cfg C version mipmap_format n m.2) fun rest =>
      .ok (m2 :: rest.1, rest.2)

/-- `TexReader::read_image`: u32 mipmap count, its safety limit, then the
mipmaps. -/
def TexReader.read_image (cfg : TexReaderCfg) (C : ExtCodecs)
    (version : TexImageContainerVersion) (mipmap_format : MipmapFormat) (s : Bytes) :
    Except Err (TexImage × Bytes) :=
  eBind (readU32 s) fun mc =>
  if MAX_MIPMAP_COUNT < mc.1 then
    .error (.safetyLimit "Mipmap count exceeds maximum")
  else
    eBind (TexReader.read_mipmaps cfg C version mipmap_format mc.1 mc.2) fun ms =>
    .ok ({ mipmaps := ms.1 }, ms.2)

/-- The image loop of `TexReader::read_image_container`. -/
def TexReader.read_images (cfg : TexReaderCfg) (C : ExtCodecs)
    (version : TexImageContainerVersion) (mipmap_format : MipmapFormat) :
    Nat → Bytes → Except Err (List TexImage × Bytes)
  | 0, s => .ok ([], s)
  | n + 1, s =>
      eBind (TexReader.read_image cfg C version mipmap_format s) fun img =>
      eBind (TexReader.read_images cfg C version mipmap_format n img.2) fun rest =>
      .ok (img.1 :: rest.1, rest.2)

/-- `TexReader::read_image_container`: container magic, version gate, the
i32 image count with its limit, the version-dependent extra fields with the
v4 MP4 sentinel rule, the demotion of a non-MP4 v4 container to v3, and the
image loop with the derived mipmap format. -/
def TexReader.read_image_container (cfg : TexReaderCfg) (C : ExtCodecs)
    (tex_format : TexFormat) (s : Bytes) : Except Err (TexImageContainer × Bytes) :=
  eBind (read_null_terminated_string 16 s) fun mg =>
  let container_magic := mg.1
  let version0 := TexImageContainerVersion.from_magic container_magic
  if ¬ version0.is_supported then .error (.unsupportedContainerVersion container_magic)
  else
    eBind (readI32 mg.2) fun ic =>
    if ic.1 < 0 ∨ (MAX_IMAGE_COUNT : Int) < ic.1 then
      .error (.safetyLimit "Image count exceeds maximum")
    else
      eBind (match version0 with
        | .Version1 | .Version2 => .ok (FreeImageFormat.Unknown, ic.2)
        | .Version3 =>
            eBind (readI32 ic.2) fun f => .ok (FreeImageFormat.ofI32 f.1, f.2)
        | .Version4 =>
            eBind (readI32 ic.2) fun f =>
            eBind (readI32 f.2) fun v =>
            let format := FreeImageFormat.ofI32 f.1
            let is_video_mp4 : Bool := v.1 == 1
            .ok ((if format = FreeImageFormat.Unknown ∧ is_video_mp4 = true
                  then FreeImageFormat.Mp4 else format), v.2)
        | .Unknown _ => .error (.unsupportedContainerVersion container_magic))
      fun fmt =>
      let image_format := fmt.1
      let version := if version0 = TexImageContainerVersion.Version4
                        ∧ image_format ≠ FreeImageFormat.Mp4
                     then TexImageContainerVersion.Version3 else version0
      let container0 : TexImageContainer :=
        { version := version, image_format := image_format, images := [] }
      let mipmap_format := container0.mipmap_format tex_format
      eBind (TexReader.read_images cfg C version mipmap_format ic.1.toNat fmt.2)
        fun imgs =>
      .ok ({ container0 with images := imgs.1 }, imgs.2)

/-- One frame record of `read_frame_info_container`: an u32 image id and
seven little-endian f32 values, stored as raw bit patterns. -/
def TexReader.read_frame (s : Bytes) : Except Err (TexFrameInfo × Bytes) :=
  eBind (readU32 s) fun iid =>
  eBind (readU32 iid.2) fun ft =>
  eBind (readU32 ft.2) fun x =>
  eBind (readU32 x.2) fun y =>
  eBind (readU32 y.2) fun w =>
  eBind (readU32 w.2) fun hx =>
  eBind (readU32 hx.2) fun wy =>
  eBind (readU32 wy.2) fun h =>
  .ok ({ image_id := iid.1, frametime := ft.1, x := x.1, y := y.1,
         width := w.1, height := h.1, width_y := wy.1, height_x := hx.1 }, h.2)

/-- The frame loop of `read_frame_info_container`. -/
def TexReader.read_frames : Nat → Bytes → Except Err (List TexFrameInfo × Bytes)
  | 0, s => .ok ([], s)
  | n + 1, s =>
      eBind (TexReader.read_frame s) fun f =>
      eBind (TexReader.read_frames n f.2) fun rest =>
      .ok (f.1 :: rest.1, rest.2)

/-- `TexReader::read_frame_info_container`: one of the three TEXS magics,
the canvas, one unused u32, the frame count with its limit, then the frame
records. -/
def TexReader.read_frame_info_container (s : Bytes) :
    Except Err (TexFrameInfoContainer × Bytes) :=
  eBind (read_null_terminated_string 16 s) fun mg =>
  if ¬ (mg.1 = texs0003Bytes ∨ mg.1 = texs0002Bytes ∨ mg.1 = texs0001Bytes) then
    .error (.invalidData "Invalid frame info magic")
  else
    eBind (readU32 mg.2) fun gw =>
    eBind (readU32 gw.2) fun gh =>
    eBind (readU32 gh.2) fun unk =>
    eBind (readU32 unk.2) fun fc =>
    if MAX_FRAME_COUNT < fc.1 then
      .error (.safetyLimit "Frame count exceeds maximum")
    else
      eBind (TexReader.read_frames fc.1 fc.2) fun fs =>
      .ok ({ gif_width := gw.1, gif_height := gh.1, frames := fs.1 }, fs.2)

/-- `TexReader::read_from`: the two fixed magics, the header, the image
container, and the frame-info table exactly when the IS_GIF flag is set. -/
def TexReader.read_from (cfg : TexReaderCfg) (C : ExtCodecs) (s : Bytes) :
    Except Err (Tex × Bytes) :=
  eBind (read_null_terminated_string 16 s) fun m1 =>
  if ¬ (m1.1 = texv0005Bytes) then .error (.invalidTexMagic texv0005Bytes m1.1)
  else
    eBind (read_null_terminated_string 16 m1.2) fun m2 =>
    if ¬ (m2.1 = texi0001Bytes) then .error (.invalidTexMagic texi0001Bytes m2.1)
    else
      eBind (TexReader.read_header m2.2) fun hd =>
      eBind (TexReader.read_image_container cfg C hd.1.format hd.2) fun ic =>
      if TexFlags.containsFlag hd.1.flags TexFlags.IS_GIF then
        eBind (TexReader.read_frame_info_container ic.2) fun fi =>
        .ok ({ magic1 := m1.1, magic2 := m2.1, header := hd.1,
               images_container := ic.1, frame_info_container := some fi.1 }, fi.2)
      else
        .ok ({ magic1 := m1.1, magic2 := m2.1, header := hd.1,
               images_container := ic.1, frame_info_container := none }, ic.2)

/-- Output format of the converter (`OutputFormat`). -/
inductive OutputFormat where
  | Png | Jpeg | Gif | WebP | Bmp | Tiff | Tga | Mp4
deriving DecidableEq

/-- Result of a conversion (`ConversionResult`). -/
structure ConversionResult where
  bytes : Bytes
  format : OutputFormat
deriving DecidableEq

/-- Symbolic decoded images.  The image codec library is external; a decoded
`DynamicImage` is represented by the syntax of the operations that produced
it: a successful `image::load_from_memory` of some bytes, an
`ImageBuffer::from_raw` over raw pixel bytes, or a `crop_imm` of another
image.  This keeps every pipeline step visible to theorems. -/
inductive ImgVal where
  | load (bytes : Bytes) : ImgVal
  | fromRaw (format : MipmapFormat) (width height : Nat) (bytes : Bytes) : ImgVal
  | crop (image : ImgVal) (x y width height : Nat) : ImgVal
deriving DecidableEq

/-- The external image codec library, as uninterpreted functions:
`load_ok bs` tells whether `image::load_from_memory(bs)` succeeds (the
decoded value is then `ImgVal.load bs`), `encode quality image format`
models the encoder dispatch of `encode_image` for the non-MP4 formats
(JPEG consults the quality), and `gif_convert` models the whole of
`convert_gif`, whose frame reconstruction does f32 arithmetic (atan2,
rounding) outside a shallow embedding; no claim depends on its internals. -/
structure ImgOps where
  load_ok : Bytes → Bool
  encode : Nat → ImgVal → OutputFormat → Except String Bytes
  gif_convert : Tex → OutputFormat → Except Err ConversionResult

/-- The converter configuration (`TexToImageConverter`). -/
structure TexToImageConverter where
  quality : Nat
deriving DecidableEq

/-- `TexToImageConverter::new()`: default quality 90. -/
def TexToImageConverter.new : TexToImageConverter := { quality := 90 }

/-- `TexToImageConverter::recommended_format`. -/
def recommended_format (tex : Tex) : OutputFormat :=
  if tex.is_video then .Mp4
  else if tex.is_gif then .Gif
  else .Png

/-- `TexToImageConverter::infer_format_from_size`: trust the declared format
when its bytes-per-pixel accounts for the data size exactly, otherwise
infer from the data size, otherwise keep the declared format. -/
def infer_format_from_size (declared_format : MipmapFormat)
    (pixel_count data_size : Nat) : MipmapFormat :=
  let declared_hit : Bool :=
    match declared_format.bytes_per_pixel with
    | some bpp => data_size == pixel_count * bpp
    | none => false
  if declared_hit then declared_format
  else if data_size = pixel_count * 4 then .RGBA8888
  else if data_size = pixel_count * 2 then .RG88
  else if data_size = pixel_count then .R8
  else declared_format

/-- The inference rule exactly as the specification words it (raw declared
format whose size matches is trusted; otherwise exact-match inference;
otherwise the declared format is kept), for comparison with
`infer_format_from_size`. -/
def infer_format_spec (declared_format : MipmapFormat)
    (pixel_count data_size : Nat) : MipmapFormat :=
  if declared_format.is_raw = true
      ∧ data_size = pixel_count * (declared_format.bytes_per_pixel.getD 0) then
    declared_format
  else if data_size = pixel_count * 4 then .RGBA8888
  else if data_size = pixel_count * 2 then .RG88
  else if data_size = pixel_count then .R8
  else declared_format

/-- `TexToImageConverter::mipmap_to_image`: infer the actual format, then
build the image buffer.  `ImageBuffer::from_raw` succeeds exactly when the
byte container is at least as long as `width * height * channels`. -/
def mipmap_to_image (m : TexMipmap) : Except Err ImgVal :=
  let pixel_count := m.width * m.height
  let data_size := m.bytes.length
  let actual_format := infer_format_from_size m.format pixel_count data_size
  match actual_format with
  | .RGBA8888 =>
      if pixel_count * 4 ≤ data_size then
        .ok (.fromRaw .RGBA8888 m.width m.height m.bytes)
      else .error (.invalidData "Invalid RGBA8888 data size for dimensions")
  | .R8 =>
      if pixel_count * 1 ≤ data_size then
        .ok (.fromRaw .R8 m.width m.height m.bytes)
      else .error (.invalidData "Invalid R8 data size for dimensions")
  | .RG88 =>
      if pixel_count * 2 ≤ data_size then
        .ok (.fromRaw .RG88 m.width m.height m.bytes)
      else .error (.invalidData "Invalid RG88 data size for dimensions")
  | _ => .error (.unsupportedMipmapFormat "Unsupported mipmap format")

/-- `TexToImageConverter::formats_match`. -/
def formats_match (mipmap_fmt : MipmapFormat) (output_fmt : OutputFormat) : Bool :=
  match mipmap_fmt, output_fmt with
  | .ImagePNG, .Png | .ImageJPEG, .Jpeg | .ImageGIF, .Gif | .ImageWEBP, .WebP
  | .ImageBMP, .Bmp | .ImageTIFF, .Tiff | .ImageTGA, .Tga => true
  | _, _ => false

/-- `TexToImageConverter::encode_image`: requesting MP4 is InvalidData,
anything else goes to the codec library with the configured quality. -/
def encode_image (E : ImgOps) (conv : TexToImageConverter) (image : ImgVal)
    (format : OutputFormat) : Except Err ConversionResult :=
  if format = .Mp4 then .error (.invalidData "Cannot encode static image as MP4")
  else
    match E.encode conv.quality image format with
    | .error e => .error (.imageConversion e)
    | .ok out => .ok { bytes := out, format := format }

/-- `TexToImageConverter::convert_embedded_image`: decode the embedded
image, pass through unchanged when the requested format matches the
embedded kind, otherwise re-encode. -/
def convert_embedded_image (E : ImgOps) (conv : TexToImageConverter)
    (m : TexMipmap) (format : OutputFormat) : Except Err ConversionResult :=
  if ¬ (E.load_ok m.bytes = true) then
    .error (.imageConversion "load_from_memory failed")
  else if formats_match m.format format then
    .ok { bytes := m.bytes, format := format }
  else encode_image E conv (.load m.bytes) format

/-- `TexToImageConverter::convert_static`: embedded images are delegated;
raw pixel data is decoded, cropped to the logical dimensions when the
header requires it, and encoded. -/
def convert_static (E : ImgOps) (conv : TexToImageConverter) (tex : Tex)
    (format : OutputFormat) : Except Err ConversionResult :=
  match first_mipmap_of tex with
  | none => .error (.invalidData "Texture has no image data")
  | some m =>
      if m.format.is_image then convert_embedded_image E conv m format
      else
        eBind (mipmap_to_image m) fun image =>
        let image := if tex.header.needs_crop then
            ImgVal.crop image 0 0 tex.header.crop_dimensions.1
              tex.header.crop_dimensions.2
          else image
        encode_image E conv image format

/-- `TexToImageConverter::convert_video`: the MP4 magic is verified only
when the payload has at least 12 bytes; `bytes[4..12]` rendered with
`String::from_utf8_lossy` starts with "ftyp" exactly when bytes 4..8 are
those ASCII codes, since the lossy rendering is the identity on ASCII. -/
def convert_video (tex : Tex) : Except Err ConversionResult :=
  match first_mipmap_of tex with
  | none => .error (.invalidData "Video texture has no data")
  | some m =>
      if 12 ≤ m.bytes.length ∧ ¬ ((m.bytes.drop 4).take 4 = ftypBytes) then
        .error (.invalidData "Expected MP4 magic header")
      else .ok { bytes := m.bytes, format := .Mp4 }

/-- `TexToImageConverter::convert`: video first, then animated, then
static. -/
def convert (E : ImgOps) (conv : TexToImageConverter) (tex : Tex)
    (format : OutputFormat) : Except Err ConversionResult :=
  if tex.is_video then convert_video tex
  else if tex.is_gif then E.gif_convert tex format
  else convert_static E conv tex format

/-- A concrete codec environment whose LZ4 stage always fails and whose
block decoders return the buffer unchanged; used to evaluate operations
that never reach the failing parts. -/
def trivialCodecs : ExtCodecs where
  lz4_decompress := fun _ _ => .error "unavailable"
  decode_bc1 := fun _ _ _ buf => .ok buf
  decode_bc3 := fun _ _ _ buf => .ok buf
  bc1_length := by intro b w h buf out hh; cases hh; rfl
  bc3_length := by intro b w h buf out hh; cases hh; rfl

/-- A concrete codec environment where every external call succeeds: the
LZ4 stage returns a zero buffer of the expected size, the block decoders
return the buffer unchanged. -/
def okCodecs : ExtCodecs where
  lz4_decompress := fun _ n => .ok (List.replicate n 0)
  decode_bc1 := fun _ _ _ buf => .ok buf
  decode_bc3 := fun _ _ _ buf => .ok buf
  bc1_length := by intro b w h buf out hh; cases hh; rfl
  bc3_length := by intro b w h buf out hh; cases hh; rfl

/-- A concrete image environment: every load succeeds, every encode
produces the byte `[99]`, animated conversion is unavailable. -/
def imgOpsConst : ImgOps where
  load_ok := fun _ => true
  encode := fun _ _ _ => .ok [99]
  gif_convert := fun _ _ => .error (.invalidData "unavailable")

/-- The default converter configuration. -/
def conv0 : TexToImageConverter := TexToImageConverter.new

/-- A mipmap whose LZ4 flag is set while `decompressed_bytes_count` is 0. -/
def mipLz4Zero : TexMipmap :=
  { width := 4, height := 4, format := .RGBA8888, is_lz4_compressed := true,
    decompressed_bytes_count := 0, bytes := [0] }

/-- A plain already-decompressed mipmap. -/
def mipPlain : TexMipmap :=
  { width := 1, height := 1, format := .RGBA8888, is_lz4_compressed := false,
    decompressed_bytes_count := 0, bytes := [0, 0, 0, 0] }

/-- A one-pixel DXT1 mipmap. -/
def mipDxt1 : TexMipmap :=
  { width := 1, height := 1, format := .CompressedDXT1, is_lz4_compressed := false,
    decompressed_bytes_count := 0, bytes := [1, 2, 3, 4, 5, 6, 7, 8] }

/-- The decompression result of `mipDxt1` under `okCodecs`. -/
def mipDxt1res : TexMipmap :=
  { width := 1, height := 1, format := .RGBA8888, is_lz4_compressed := false,
    decompressed_bytes_count := 0, bytes := [0, 0, 0, 0] }

/-- A minimal well-formed TEX byte stream: both magics, an RGBA8888 header
with no flags and unit dimensions, and a v1 container with zero images. -/
def texStreamPlain : Bytes :=
  texv0005Bytes ++ [0] ++ texi0001Bytes ++ [0] ++
  le32 0 ++ le32 0 ++ le32 1 ++ le32 1 ++ le32 1 ++ le32 1 ++ le32 0 ++
  texb0001Bytes ++ [0] ++ le32 0

/-- The texture `texStreamPlain` parses to. -/
def texPlain : Tex :=
  { magic1 := texv0005Bytes, magic2 := texi0001Bytes,
    header := { format := .RGBA8888, flags := 0, texture_width := 1,
                texture_height := 1, image_width := 1, image_height := 1,
                unk_int0 := 0 },
    images_container := { version := .Version1, image_format := .Unknown,
                          images := [] },
    frame_info_container := none }

/-- A TEX byte stream whose header sets the IS_GIF flag and whose frame
table declares zero frames. -/
def texStreamGifEmpty : Bytes :=
  texv0005Bytes ++ [0] ++ texi0001Bytes ++ [0] ++
  le32 0 ++ le32 4 ++ le32 1 ++ le32 1 ++ le32 1 ++ le32 1 ++ le32 0 ++
  texb0001Bytes ++ [0] ++ le32 0 ++
  texs0003Bytes ++ [0] ++ le32 1 ++ le32 1 ++ le32 0 ++ le32 0

/-- The texture `texStreamGifEmpty` parses to: animated flag set, frame
table present but empty. -/
def texGifEmpty : Tex :=
  { magic1 := texv0005Bytes, magic2 := texi0001Bytes,
    header := { format := .RGBA8888, flags := 4, texture_width := 1,
                texture_height := 1, image_width := 1, image_height := 1,
                unk_int0 := 0 },
    images_container := { version := .Version1, image_format := .Unknown,
                          images := [] },
    frame_info_container := some { gif_width := 1, gif_height := 1, frames := [] } }

/-- A 5-byte MP4 payload mipmap. -/
def vidMipShort : TexMipmap :=
  { width := 1, height := 1, format := .VideoMp4, is_lz4_compressed := false,
    decompressed_bytes_count := 0, bytes := [0, 1, 2, 3, 4] }

/-- A 12-byte MP4 payload mipmap whose bytes 4..8 spell ftyp. -/
def vidMipFtyp : TexMipmap :=
  { width := 1, height := 1, format := .VideoMp4, is_lz4_compressed := false,
    decompressed_bytes_count := 0,
    bytes := [0, 0, 0, 0, 102, 116, 121, 112, 0, 0, 0, 0] }

/-- A raw RGBA8888 mipmap of 2 by 1 pixels. -/
def rawMipCrop : TexMipmap :=
  { width := 2, height := 1, format := .RGBA8888, is_lz4_compressed := false,
    decompressed_bytes_count := 0, bytes := [0, 1, 2, 3, 4, 5, 6, 7] }

/-- A raw RGBA8888 mipmap of one pixel. -/
def rawMip1 : TexMipmap :=
  { width := 1, height := 1, format := .RGBA8888, is_lz4_compressed := false,
    decompressed_bytes_count := 0, bytes := [1, 2, 3, 4] }

/-- An embedded-PNG mipmap. -/
def pngMip : TexMipmap :=
  { width := 2, height := 2, format := .ImagePNG, is_lz4_compressed := false,
    decompressed_bytes_count := 0, bytes := [1, 2, 3] }

/-- A video texture whose first mipmap payload has only 5 bytes. -/
def vidTexShort : Tex :=
  { magic1 := texv0005Bytes, magic2 := texi0001Bytes,
    header := { format := .RGBA8888, flags := 32, texture_width := 1,
                texture_height := 1, image_width := 1, image_height := 1,
                unk_int0 := 0 },
    images_container :=
      { version := .Version4, image_format := .Mp4,
        images := [{ mipmaps := [vidMipShort] }] },
    frame_info_container := none }

/-- A video texture whose first mipmap payload carries the MP4 box header
(bytes 4..8 are the ASCII codes of ftyp). -/
def vidTexFtyp : Tex :=
  { magic1 := texv0005Bytes, magic2 := texi0001Bytes,
    header := { format := .RGBA8888, flags := 32, texture_width := 1,
                texture_height := 1, image_width := 1, image_height := 1,
                unk_int0 := 0 },
    images_container :=
      { version := .Version4, image_format := .Mp4,
        images := [{ mipmaps := [vidMipFtyp] }] },
    frame_info_container := none }

/-- A static texture that needs cropping (storage 2 by 2, logical 1 by 1)
whose first mipmap is an embedded PNG. -/
def pngTexCrop : Tex :=
  { magic1 := texv0005Bytes, magic2 := texi0001Bytes,
    header := { format := .RGBA8888, flags := 0, texture_width := 2,
                texture_height := 2, image_width := 1, image_height := 1,
                unk_int0 := 0 },
    images_container :=
      { version := .Version3, image_format := .PNG,
        images := [{ mipmaps := [pngMip] }] },
    frame_info_container := none }

/-- A static texture that needs cropping (storage 2 by 1, logical 1 by 1)
whose first mipmap is raw RGBA8888 pixel data. -/
def rawTexCrop : Tex :=
  { magic1 := texv0005Bytes, magic2 := texi0001Bytes,
    header := { format := .RGBA8888, flags := 0, texture_width := 2,
                texture_height := 1, image_width := 1, image_height := 1,
                unk_int0 := 0 },
    images_container :=
      { version := .Version1, image_format := .Unknown,
        images := [{ mipmaps := [rawMipCrop] }] },
    frame_info_container := none }

/-- A static texture with one raw RGBA8888 pixel and no cropping needed. -/
def plainTex1 : Tex :=
  { magic1 := texv0005Bytes, magic2 := texi0001Bytes,
    header := { format := .RGBA8888, flags := 0, texture_width := 1,
                texture_height := 1, image_width := 1, image_height := 1,
                unk_int0 := 0 },
    images_container :=
      { version := .Version1, image_format := .Unknown,
        images := [{ mipmaps := [rawMip1] }] },
    frame_info_container := none }

theorem eBind_ok (a : α) (f : α → Except Err β) : eBind (.ok a) f = f a := rfl

theorem eBind_error (e : Err) (f : α → Except Err β) :
    eBind (.error e) f = .error e := rfl

theorem eBind_eq_ok {x : Except Err α} {f : α → Except Err β} {b : β}
    (h : eBind x f = .ok b) : ∃ a, x = .ok a ∧ f a = .ok b := by
  cases x with
  | ok a => exact ⟨a, rfl, h⟩
  | error e => exact absurd h (by simp [eBind])

theorem readU32_le32 {n : Nat} (rest : Bytes) (hn : n < 4294967296) :
    readU32 (le32 n ++ rest) = .ok (n, rest) := by
  simp only [le32, List.cons_append, List.nil_append, readU32, Except.ok.injEq,
    Prod.mk.injEq, and_true]
  omega

theorem readI32_le32 {n : Nat} (rest : Bytes) (hn : n < 4294967296) :
    readI32 (le32 n ++ rest) = .ok (i32ofU32 n, rest) := by
  simp [readI32, readU32_le32 rest hn, eBind]

theorem take_append_self (l r : List Nat) : (l ++ r).take l.length = l := by
  induction l with
  | nil => rfl
  | cons a t ih => simp [ih]

theorem drop_append_self (l r : List Nat) : (l ++ r).drop l.length = r := by
  induction l with
  | nil => rfl
  | cons a t ih => simp [ih]

theorem readExact_append (l r : Bytes) : readExact l.length (l ++ r) = .ok (l, r) := by
  simp [readExact, take_append_self, drop_append_self]

theorem i32ofU32_eq_one_iff {n : Nat} (hn : n < 4294967296) :
    i32ofU32 n = 1 ↔ n = 1 := by
  unfold i32ofU32
  split <;> omega

theorem i32ofU32_nonneg_bound {n : Nat} (hn : n < 2147483648) :
    i32ofU32 n = (n : Int) := by
  unfold i32ofU32
  split <;> omega

theorem readU32_short {s : Bytes} (h : s.length < 4) :
    readU32 s = .error .ioUnexpectedEof := by
  rcases s with _ | ⟨a, _ | ⟨b, _ | ⟨c, _ | ⟨d, t⟩⟩⟩⟩ <;> simp [readU32] <;>
    simp at h <;> omega

/-- Claim C3: when the converter decodes a raw-pixel mipmap, the format is
chosen exactly as specified: a raw declared format whose byte count matches
`pixel_count * bytes_per_pixel` is trusted; otherwise the format is
inferred by exact match on the data size (4n, then 2n, then n), and kept as
declared when nothing matches. -/
theorem infer_format_from_size_matches_spec
    (declared_format : MipmapFormat) (pixel_count data_size : Nat) :
    infer_format_from_size declared_format pixel_count data_size
      = infer_format_spec declared_format pixel_count data_size := by
  cases declared_format <;>
    simp [infer_format_from_size, infer_format_spec, MipmapFormat.bytes_per_pixel,
      MipmapFormat.is_raw]

theorem u32_to_rgba_bytes_length (l : List Nat) :
    (u32_to_rgba_bytes l).length = 4 * l.length := by
  induction l with
  | nil => rfl
  | cons p t ih => simp [u32_to_rgba_bytes, ih]; omega

theorem decompress_lz4_ok {C : ExtCodecs} {m m1 : TexMipmap}
    (h : MipmapDecompressor.decompress_lz4 C m = .ok m1) :
    m1.format = m.format ∧ m1.width = m.width ∧ m1.height = m.height ∧
    m1.decompressed_bytes_count = m.decompressed_bytes_count ∧
    (m.decompressed_bytes_count = 0 → m1 = m) ∧
    (m.decompressed_bytes_count ≠ 0 → m1.is_lz4_compressed = false) := by
  unfold MipmapDecompressor.decompress_lz4 at h
  split at h
  next hz =>
    cases h
    exact ⟨rfl, rfl, rfl, rfl, fun _ => rfl, fun hc => absurd hz hc⟩
  next hz =>
    split at h
    next => exact Except.noConfusion h
    next d heq =>
      cases h
      exact ⟨rfl, rfl, rfl, rfl, fun hc => absurd hc hz, fun _ => rfl⟩

theorem decompress_dxt_ok {C : ExtCodecs} {m m1 : TexMipmap}
    (h : MipmapDecompressor.decompress_dxt C m = .ok m1) :
    m1.is_lz4_compressed = m.is_lz4_compressed ∧
    m1.decompressed_bytes_count = m.decompressed_bytes_count ∧
    m1.width = m.width ∧ m1.height = m.height ∧
    m1.format.is_compressed = false ∧
    (m.format.is_compressed = false → m1 = m) ∧
    ((m.format = .CompressedDXT1 ∨ m.format = .CompressedDXT5) →
      m1.format = .RGBA8888 ∧ m1.bytes.length = m.width * m.height * 4) := by
  unfold MipmapDecompressor.decompress_dxt at h
  cases hf : m.format <;> simp only [hf] at h
  case CompressedDXT1 =>
    split at h
    next => exact Except.noConfusion h
    next out heq =>
      cases h
      refine ⟨rfl, rfl, rfl, rfl, rfl, ?_, ?_⟩
      · intro hc; simp [MipmapFormat.is_compressed] at hc
      · intro _
        refine ⟨rfl, ?_⟩
        simp only [u32_to_rgba_bytes_length, C.bc1_length _ _ _ _ _ heq,
          List.length_replicate]
        ring
  case CompressedDXT5 =>
    split at h
    next => exact Except.noConfusion h
    next out heq =>
      cases h
      refine ⟨rfl, rfl, rfl, rfl, rfl, ?_, ?_⟩
      · intro hc; simp [MipmapFormat.is_compressed] at hc
      · intro _
        refine ⟨rfl, ?_⟩
        simp only [u32_to_rgba_bytes_length, C.bc3_length _ _ _ _ _ heq,
          List.length_replicate]
        ring
  case CompressedDXT3 => exact Except.noConfusion h
  all_goals
    (cases h
     refine ⟨rfl, rfl, rfl, rfl, ?_, fun _ => rfl, ?_⟩
     · rw [hf]; rfl
     · rintro (h1 | h1) <;> exact MipmapFormat.noConfusion h1)

theorem decompress_ok_state {C : ExtCodecs} {m mr : TexMipmap}
    (h : MipmapDecompressor.decompress C m = .ok mr) :
    mr.format.is_compressed = false ∧
    (mr.is_lz4_compressed = false ∨ mr.decompressed_bytes_count = 0) := by
  unfold MipmapDecompressor.decompress at h
  obtain ⟨m1, h1, h2⟩ := eBind_eq_ok h
  have hm1 : m1.is_lz4_compressed = false ∨ m1.decompressed_bytes_count = 0 := by
    by_cases hl : m.is_lz4_compressed
    · simp only [hl, if_true] at h1
      have L := decompress_lz4_ok h1
      by_cases hz : m.decompressed_bytes_count = 0
      · exact Or.inr (by rw [L.2.2.2.1, hz])
      · exact Or.inl (L.2.2.2.2.2 hz)
    · simp only [hl] at h1
      simp only [if_false, Bool.false_eq_true] at h1
      cases h1
      exact Or.inl (by simpa using hl)
  by_cases hcomp : m1.format.is_compressed
  · simp only [hcomp, if_true] at h2
    have D := decompress_dxt_ok h2
    refine ⟨D.2.2.2.2.1, ?_⟩
    rw [D.1, D.2.1]
    exact hm1
  · simp only [hcomp] at h2
    simp only [if_false, Bool.false_eq_true] at h2
    cases h2
    exact ⟨by simpa using hcomp, hm1⟩

/-- Claim C9 (confirmed): decompress is idempotent; after one successful
call a second call succeeds and returns exactly the same mipmap. -/
theorem decompress_idempotent (C : ExtCodecs) (m mr : TexMipmap)
    (h : MipmapDecompressor.decompress C m = .ok mr) :
    MipmapDecompressor.decompress C mr = .ok mr := by
  obtain ⟨hA, hB⟩ := decompress_ok_state h
  unfold MipmapDecompressor.decompress
  have hstage1 : (if mr.is_lz4_compressed then MipmapDecompressor.decompress_lz4 C mr
      else .ok mr) = .ok mr := by
    by_cases hl : mr.is_lz4_compressed
    · have hz : mr.decompressed_bytes_count = 0 := by
        rcases hB with hB | hB
        · rw [hl] at hB; exact absurd hB (by simp)
        · exact hB
      simp [hl, MipmapDecompressor.decompress_lz4, hz]
    · simp [hl]
  rw [hstage1, eBind_ok]
  simp [hA]

/-- Witness for claim C9: a one-pixel DXT1 mipmap decompresses to an RGBA
mipmap, and decompressing that result again returns it unchanged. -/
theorem decompress_idempotent_witness :
    MipmapDecompressor.decompress okCodecs mipDxt1res = .ok mipDxt1res :=
  decompress_idempotent okCodecs mipDxt1 mipDxt1res rfl

/-- Counterexample for claim C1: a mipmap with the LZ4 flag set and
`decompressed_bytes_count = 0` (and a non-empty payload) decompresses
successfully, yet the flag is still set afterwards. -/
theorem decompress_lz4_zero_count_keeps_flag :
    MipmapDecompressor.decompress trivialCodecs mipLz4Zero = .ok mipLz4Zero ∧
    mipLz4Zero.is_lz4_compressed = true ∧ mipLz4Zero.has_data = true :=
  ⟨rfl, rfl, rfl⟩

/-- Claim C1 (amended): on a successful decompress, the LZ4 flag is cleared
whenever `decompressed_bytes_count` was non-zero or the flag was already
clear (when the flag is set with a zero count the LZ4 stage is skipped and
the flag survives); and a mipmap whose format was DXT1 or DXT5 comes out as
RGBA8888 with exactly `width * height * 4` bytes. -/
theorem decompress_ok_flag_and_dxt_shape (C : ExtCodecs) (m mr : TexMipmap)
    (h : MipmapDecompressor.decompress C m = .ok mr) :
    ((m.decompressed_bytes_count ≠ 0 ∨ m.is_lz4_compressed = false) →
      mr.is_lz4_compressed = false) ∧
    ((m.format = .CompressedDXT1 ∨ m.format = .CompressedDXT5) →
      mr.format = .RGBA8888 ∧ mr.bytes.length = m.width * m.height * 4) := by
  unfold MipmapDecompressor.decompress at h
  obtain ⟨m1, h1, h2⟩ := eBind_eq_ok h
  have stage1 : m1.format = m.format ∧ m1.width = m.width ∧ m1.height = m.height ∧
      ((m.decompressed_bytes_count ≠ 0 ∨ m.is_lz4_compressed = false) →
        m1.is_lz4_compressed = false) := by
    by_cases hl : m.is_lz4_compressed
    · simp only [hl, if_true] at h1
      have L := decompress_lz4_ok h1
      refine ⟨L.1, L.2.1, L.2.2.1, ?_⟩
      rintro (hz | hz)
      · exact L.2.2.2.2.2 hz
      · rw [hl] at hz; exact absurd hz (by simp)
    · simp only [hl] at h1
      simp only [if_false, Bool.false_eq_true] at h1
      cases h1
      exact ⟨rfl, rfl, rfl, fun _ => by simpa using hl⟩
  by_cases hcomp : m1.format.is_compressed
  · simp only [hcomp, if_true] at h2
    have D := decompress_dxt_ok h2
    constructor
    · intro hz; rw [D.1]; exact stage1.2.2.2 hz
    · intro hfmt
      have hm1fmt : m1.format = .CompressedDXT1 ∨ m1.format = .CompressedDXT5 := by
        rw [stage1.1]; exact hfmt
      obtain ⟨hx, hy⟩ := D.2.2.2.2.2.2 hm1fmt
      exact ⟨hx, by rw [hy, stage1.2.1, stage1.2.2.1]⟩
  · simp only [hcomp] at h2
    simp only [if_false, Bool.false_eq_true] at h2
    cases h2
    constructor
    · exact stage1.2.2.2
    · intro hfmt
      rcases hfmt with hf | hf <;>
        (rw [← stage1.1] at hf; rw [hf] at hcomp;
         exact absurd hcomp (by simp [MipmapFormat.is_compressed]))

/-- Witness for claim C1 (amended form): the one-pixel DXT1 mipmap comes
out as RGBA8888 with 4 bytes and its LZ4 flag clear. -/
theorem decompress_ok_flag_and_dxt_shape_witness :
    mipDxt1res.is_lz4_compressed = false ∧
    mipDxt1res.format = .RGBA8888 ∧
    mipDxt1res.bytes.length = mipDxt1.width * mipDxt1.height * 4 :=
  have H := decompress_ok_flag_and_dxt_shape okCodecs mipDxt1 mipDxt1res rfl
  ⟨H.1 (Or.inr rfl), H.2 (Or.inl rfl)⟩

theorem rnts_texb4 (tail : Bytes) :
    read_null_terminated_string 16 (texb0004Bytes ++ 0 :: tail)
      = .ok (texb0004Bytes, tail) := rfl

theorem rnts_texb3 (tail : Bytes) :
    read_null_terminated_string 16 (texb0003Bytes ++ 0 :: tail)
      = .ok (texb0003Bytes, tail) := rfl

theorem from_magic_texb4 :
    TexImageContainerVersion.from_magic texb0004Bytes = .Version4 := rfl

theorem from_magic_texb3 :
    TexImageContainerVersion.from_magic texb0003Bytes = .Version3 := rfl

/-- Claim C2 (confirmed): a v4 container (magic TEXB0004) whose effective
image-kind is not MP4 parses identically to a v3 container (magic TEXB0003)
carrying the same image count, the same image-kind word and the same
remaining byte stream: the demoted version, the image-kind and every
per-mipmap record agree, so the four v4-only per-mipmap fields are not
consumed. -/
theorem read_image_container_v4_demotes_to_v3
    (cfg : TexReaderCfg) (C : ExtCodecs) (tf : TexFormat) (n k f : Nat)
    (rest : Bytes) (hn : n < 4294967296) (hk : k < 4294967296)
    (hf : f < 4294967296)
    (heff : (if FreeImageFormat.ofI32 (i32ofU32 k) = FreeImageFormat.Unknown ∧ f = 1
             then FreeImageFormat.Mp4 else FreeImageFormat.ofI32 (i32ofU32 k))
            ≠ FreeImageFormat.Mp4) :
    TexReader.read_image_container cfg C tf
        (texb0004Bytes ++ 0 :: (le32 n ++ (le32 k ++ (le32 f ++ rest))))
      = TexReader.read_image_container cfg C tf
        (texb0003Bytes ++ 0 :: (le32 n ++ (le32 k ++ rest))) := by
  have hcond : ¬ (FreeImageFormat.ofI32 (i32ofU32 k) = FreeImageFormat.Unknown ∧ f = 1) := by
    intro hc
    rw [if_pos hc] at heff
    exact heff rfl
  unfold TexReader.read_image_container
  rw [rnts_texb4, rnts_texb3]
  simp only [eBind_ok, from_magic_texb4, from_magic_texb3,
    TexImageContainerVersion.is_supported, not_true, Bool.true_eq_false, if_false,
    ite_false, ite_true]
  rw [readI32_le32 _ hn, readI32_le32 _ hn]
  simp only [eBind_ok]
  by_cases hbound : i32ofU32 n < 0 ∨ (MAX_IMAGE_COUNT : Int) < i32ofU32 n
  · rw [if_pos hbound, if_pos hbound]
  · rw [if_neg hbound, if_neg hbound]
    rw [readI32_le32 _ hk, readI32_le32 _ hk]
    simp only [eBind_ok]
    rw [readI32_le32 _ hf]
    simp only [eBind_ok, beq_iff_eq, i32ofU32_eq_one_iff hf]
    rw [if_neg hcond]
    rw [if_pos ⟨trivial, by rw [if_neg hcond] at heff; exact heff⟩]
    rw [if_neg (by simp)]

/-- Witness for claim C2: with image count 0, image-kind 13 (PNG) and an
empty remainder, the v4 and v3 parses coincide. -/
theorem read_image_container_v4_demotes_to_v3_witness :
    TexReader.read_image_container TexReaderCfg.full trivialCodecs .RGBA8888
        (texb0004Bytes ++ 0 :: (le32 0 ++ (le32 13 ++ (le32 0 ++ []))))
      = TexReader.read_image_container TexReaderCfg.full trivialCodecs .RGBA8888
        (texb0003Bytes ++ 0 :: (le32 0 ++ (le32 13 ++ []))) :=
  read_image_container_v4_demotes_to_v3 TexReaderCfg.full trivialCodecs .RGBA8888
    0 13 0 [] (by decide) (by decide) (by decide) (by decide)

/-- Counterexample for claim C7: a stream whose header sets the animated
flag and whose frame table has zero records parses successfully, so the
frame list of a parsed animated texture can be empty. -/
theorem read_from_empty_frame_table_counterexample :
    TexReader.read_from TexReaderCfg.full trivialCodecs texStreamGifEmpty
        = .ok (texGifEmpty, []) ∧
    texGifEmpty.is_gif = true ∧
    texGifEmpty.frame_info_container.map TexFrameInfoContainer.frames = some [] :=
  ⟨rfl, rfl, rfl⟩

/-- Claim C7 (amended): for every texture returned by the reader, the
frame-info table is present exactly when the animated flag is set (it can,
however, be empty). -/
theorem read_from_frame_info_iff_gif
    (cfg : TexReaderCfg) (C : ExtCodecs) (s : Bytes) (tex : Tex) (rest : Bytes)
    (h : TexReader.read_from cfg C s = .ok (tex, rest)) :
    (tex.is_gif = true ↔ tex.frame_info_container.isSome = true) := by
  unfold TexReader.read_from at h
  obtain ⟨m1, hm1, h⟩ := eBind_eq_ok h
  split at h
  next => exact Except.noConfusion h
  next =>
    obtain ⟨m2, hm2, h⟩ := eBind_eq_ok h
    split at h
    next => exact Except.noConfusion h
    next =>
      obtain ⟨hd, hhd, h⟩ := eBind_eq_ok h
      obtain ⟨ic, hic, h⟩ := eBind_eq_ok h
      split at h
      next hflag =>
        obtain ⟨fi, hfi, h⟩ := eBind_eq_ok h
        cases h
        simp [Tex.is_gif, hflag]
      next hflag =>
        cases h
        simp [Tex.is_gif]
        simpa using hflag

/-- Witness for claim C7: the plain stream parses with the animated flag
clear and no frame table, satisfying the equivalence. -/
theorem read_from_frame_info_iff_gif_witness :
    (texPlain.is_gif = true ↔ texPlain.frame_info_container.isSome = true) :=
  read_from_frame_info_iff_gif TexReaderCfg.full trivialCodecs texStreamPlain
    texPlain [] rfl

/-- Claim C10 (confirmed): a texture with the video flag set is dispatched
to the video passthrough whatever output format is requested, and when the
first mipmap payload is shorter than 12 bytes the ftyp verification is
skipped: convert succeeds and returns the short payload verbatim as MP4. -/
theorem convert_video_dispatch_and_short_skip
    (E : ImgOps) (conv : TexToImageConverter) (tex : Tex) (fmt : OutputFormat)
    (hv : tex.is_video = true) :
    convert E conv tex fmt = convert_video tex ∧
    (∀ m, first_mipmap_of tex = some m → m.bytes.length < 12 →
      convert E conv tex fmt = .ok { bytes := m.bytes, format := .Mp4 }) := by
  have hdisp : convert E conv tex fmt = convert_video tex := by
    simp [convert, hv]
  refine ⟨hdisp, fun m hm hlen => ?_⟩
  rw [hdisp]
  have h12 : ¬ (12 ≤ m.bytes.length) := by omega
  simp [convert_video, hm, h12]

/-- Claim C4 (amended): for a video texture with a first mipmap, when the
payload has at least 12 bytes and bytes 4..12 do not begin with ftyp the
conversion fails with InvalidData; when bytes 4..12 begin with ftyp, or the
payload is shorter than 12 bytes, the payload is returned verbatim with
format MP4. -/
theorem convert_video_ftyp_check
    (E : ImgOps) (conv : TexToImageConverter) (tex : Tex) (fmt : OutputFormat)
    (m : TexMipmap)
    (hv : tex.is_video = true) (hm : first_mipmap_of tex = some m) :
    ((12 ≤ m.bytes.length ∧ ¬ ((m.bytes.drop 4).take 4 = ftypBytes)) →
      convert E conv tex fmt = .error (.invalidData "Expected MP4 magic header")) ∧
    ((m.bytes.length < 12 ∨ (m.bytes.drop 4).take 4 = ftypBytes) →
      convert E conv tex fmt = .ok { bytes := m.bytes, format := .Mp4 }) := by
  have hdisp : convert E conv tex fmt = convert_video tex := by
    simp [convert, hv]
  rw [hdisp]
  constructor
  · intro hq
    simp only [convert_video, hm]
    rw [if_pos hq]
  · intro hq
    simp only [convert_video, hm]
    rw [if_neg ?hneg]
    case hneg =>
      rcases hq with hq | hq
      · exact fun hcon => absurd hcon.1 (by omega)
      · exact fun hcon => hcon.2 hq

/-- Claim C5 (amended): for a static (non-video, non-animated) texture
whose first mipmap is raw pixel data (not an embedded image) and whose
header requires cropping, a successful conversion encodes exactly the
decoded image cropped from the top-left to the logical dimensions. -/
theorem convert_static_raw_crops_before_encode
    (E : ImgOps) (conv : TexToImageConverter) (tex : Tex) (fmt : OutputFormat)
    (m : TexMipmap) (r : ConversionResult)
    (hv : tex.is_video = false) (hg : tex.is_gif = false)
    (hm : first_mipmap_of tex = some m) (hi : m.format.is_image = false)
    (hc : tex.header.needs_crop = true)
    (h : convert E conv tex fmt = .ok r) :
    ∃ img, mipmap_to_image m = .ok img ∧
      E.encode conv.quality
        (ImgVal.crop img 0 0 tex.header.crop_dimensions.1
          tex.header.crop_dimensions.2) fmt = .ok r.bytes ∧
      r.format = fmt := by
  simp only [convert, hv, hg, Bool.false_eq_true, if_false, convert_static, hm,
    hi] at h
  obtain ⟨img, himg, henc⟩ := eBind_eq_ok h
  rw [hc] at henc
  simp only [if_true] at henc
  unfold encode_image at henc
  split at henc
  next => exact Except.noConfusion henc
  next =>
    split at henc
    next => exact Except.noConfusion henc
    next out heq =>
      cases henc
      exact ⟨img, himg, by rw [heq], rfl⟩

/-- Claim C6 (amended): the recommended format of a non-video non-animated
texture is PNG, and converting to it succeeds provided the texture has a
first mipmap that is raw pixel data, decodes to a pixel buffer, and the
image library encodes the (possibly cropped) buffer successfully. -/
theorem convert_recommended_static_succeeds
    (E : ImgOps) (conv : TexToImageConverter) (tex : Tex) (m : TexMipmap)
    (img : ImgVal) (bs : Bytes)
    (hv : tex.is_video = false) (hg : tex.is_gif = false)
    (hm : first_mipmap_of tex = some m) (hi : m.format.is_image = false)
    (himg : mipmap_to_image m = .ok img)
    (henc : E.encode conv.quality
        (if tex.header.needs_crop then
           ImgVal.crop img 0 0 tex.header.crop_dimensions.1
             tex.header.crop_dimensions.2
         else img) (recommended_format tex) = .ok bs) :
    recommended_format tex = .Png ∧
    convert E conv tex (recommended_format tex)
      = .ok { bytes := bs, format := recommended_format tex } := by
  have hrec : recommended_format tex = .Png := by
    simp [recommended_format, hv, hg]
  refine ⟨hrec, ?_⟩
  rw [hrec] at henc ⊢
  simp only [convert, hv, hg, Bool.false_eq_true, if_false, convert_static, hm, hi]
  rw [himg, eBind_ok]
  unfold encode_image
  rw [if_neg (by simp)]
  rw [henc]

/-- Counterexample for claim C4: a video texture whose 5-byte payload does
not contain the ftyp marker converts successfully (verbatim, as MP4)
instead of failing with InvalidData. -/
theorem convert_video_short_payload_counterexample :
    convert imgOpsConst conv0 vidTexShort .Mp4
        = .ok { bytes := vidMipShort.bytes, format := .Mp4 } ∧
    first_mipmap_of vidTexShort = some vidMipShort ∧
    (vidMipShort.bytes.drop 4).take 4 ≠ ftypBytes :=
  ⟨rfl, rfl, by decide⟩

/-- Witness for claim C4 (amended form): a payload carrying ftyp at bytes
4..8 passes through verbatim. -/
theorem convert_video_ftyp_check_witness :
    convert imgOpsConst conv0 vidTexFtyp .Png
      = .ok { bytes := vidMipFtyp.bytes, format := .Mp4 } :=
  (convert_video_ftyp_check imgOpsConst conv0 vidTexFtyp .Png vidMipFtyp rfl rfl).2
    (Or.inr (by decide))

/-- Witness for claim C10: a PNG request on a short-payload video texture
still returns the payload as MP4. -/
theorem convert_video_dispatch_and_short_skip_witness :
    convert imgOpsConst conv0 vidTexShort .Png
      = .ok { bytes := vidMipShort.bytes, format := .Mp4 } :=
  (convert_video_dispatch_and_short_skip imgOpsConst conv0 vidTexShort .Png rfl).2
    vidMipShort rfl (by decide)

/-- Counterexample for claim C5: a static texture that needs cropping but
whose first mipmap is an embedded PNG is passed through byte-for-byte; no
crop happens before (or instead of) encoding, as every encode under this
environment returns [99] while the output is the raw payload. -/
theorem convert_embedded_image_no_crop_counterexample :
    convert imgOpsConst conv0 pngTexCrop .Png
        = .ok { bytes := pngMip.bytes, format := .Png } ∧
    pngTexCrop.header.needs_crop = true ∧
    first_mipmap_of pngTexCrop = some pngMip ∧
    (∀ q img f2, imgOpsConst.encode q img f2 = .ok [99]) ∧
    pngMip.bytes ≠ [99] :=
  ⟨rfl, rfl, rfl, fun _ _ _ => rfl, by decide⟩

/-- Witness for claim C5 (amended form): the 2 by 1 raw texture cropped to
1 by 1 encodes through the crop expression. -/
theorem convert_static_raw_crops_before_encode_witness :
    ∃ img, mipmap_to_image rawMipCrop = .ok img ∧
      imgOpsConst.encode conv0.quality
        (ImgVal.crop img 0 0 rawTexCrop.header.crop_dimensions.1
          rawTexCrop.header.crop_dimensions.2) .Png
        = .ok (ConversionResult.bytes { bytes := [99], format := .Png }) ∧
      ConversionResult.format { bytes := [99], format := .Png } = .Png :=
  convert_static_raw_crops_before_encode imgOpsConst conv0 rawTexCrop .Png
    rawMipCrop { bytes := [99], format := .Png } rfl rfl rfl rfl rfl rfl

/-- Counterexample for claim C6: a successfully parsed texture with zero
images (vacuously, all payloads decompressed) makes
convert(tex, recommended_format(tex)) fail with InvalidData. -/
theorem convert_recommended_no_images_counterexample :
    TexReader.read_from TexReaderCfg.full trivialCodecs texStreamPlain
        = .ok (texPlain, []) ∧
    recommended_format texPlain = .Png ∧
    convert imgOpsConst conv0 texPlain (recommended_format texPlain)
      = .error (.invalidData "Texture has no image data") :=
  ⟨rfl, rfl, rfl⟩

/-- Witness for claim C6 (amended form): a one-pixel raw texture converts
to PNG under an all-ok image environment. -/
theorem convert_recommended_static_succeeds_witness :
    recommended_format plainTex1 = .Png ∧
    convert imgOpsConst conv0 plainTex1 (recommended_format plainTex1)
      = .ok { bytes := [99], format := recommended_format plainTex1 } :=
  convert_recommended_static_succeeds imgOpsConst conv0 plainTex1 rawMip1
    (.fromRaw .RGBA8888 1 1 [1, 2, 3, 4]) [99] rfl rfl rfl rfl rfl rfl

/-- Claim C8 (confirmed): the package reader rejects a magic length prefix
over 64 and an entry path length prefix over 4096 and an entry count over
100000 with SafetyLimit, a magic without the PKGV start with
InvalidPkgMagic, a non-UTF-8 path with StringEncoding, and a short read
with the io UnexpectedEof kind. -/
theorem package_read_from_error_cases :
    (∀ (be : Bool) (n : Nat) (rest : Bytes), n < 4294967296 → 64 < n →
      PackageReader.read_from be (le32 n ++ rest)
        = .error (.safetyLimit "String length exceeds maximum")) ∧
    (∀ (be : Bool) (magic rest : Bytes), magic.length ≤ 64 →
      isValidUtf8 magic = true → magic.take 4 ≠ pkgvBytes →
      PackageReader.read_from be (le32 magic.length ++ (magic ++ rest))
        = .error (.invalidPkgMagic magic)) ∧
    (∀ (be : Bool) (magic : Bytes) (n : Nat) (rest : Bytes), magic.length ≤ 64 →
      isValidUtf8 magic = true → magic.take 4 = pkgvBytes →
      n < 4294967296 → 100000 < n →
      PackageReader.read_from be (le32 magic.length ++ (magic ++ (le32 n ++ rest)))
        = .error (.safetyLimit "Entry count exceeds maximum")) ∧
    (∀ (k n : Nat) (rest : Bytes), n < 4294967296 → 4096 < n →
      pkgReadEntries (k + 1) (le32 n ++ rest)
        = .error (.safetyLimit "String length exceeds maximum")) ∧
    (∀ (k : Nat) (path rest : Bytes), path.length ≤ 4096 →
      isValidUtf8 path = false →
      pkgReadEntries (k + 1) (le32 path.length ++ (path ++ rest))
        = .error .stringEncoding) ∧
    (∀ (be : Bool) (s : Bytes), s.length < 4 →
      PackageReader.read_from be s = .error .ioUnexpectedEof) := by
  refine ⟨?_, ?_, ?_, ?_, ?_, ?_⟩
  · intro be n rest hn h64
    unfold PackageReader.read_from read_length_prefixed_string
    rw [readU32_le32 _ hn]
    simp only [eBind_ok]
    rw [if_pos h64]
    rfl
  · intro be magic rest hlen hval hpk
    unfold PackageReader.read_from read_length_prefixed_string
    rw [readU32_le32 _ (by omega)]
    simp only [eBind_ok]
    rw [if_neg (by omega)]
    rw [readExact_append]
    simp only [eBind_ok, hval, if_true]
    rw [if_pos hpk]
  · intro be magic n rest hlen hval hpk hn h100
    unfold PackageReader.read_from read_length_prefixed_string
    rw [readU32_le32 _ (by omega)]
    simp only [eBind_ok]
    rw [if_neg (by omega)]
    rw [readExact_append]
    simp only [eBind_ok, hval, if_true]
    rw [if_neg (by simp [hpk])]
    rw [readU32_le32 _ hn]
    simp only [eBind_ok]
    rw [if_pos h100]
  · intro k n rest hn h4096
    unfold pkgReadEntries read_length_prefixed_string
    rw [readU32_le32 _ hn]
    simp only [eBind_ok]
    rw [if_pos h4096]
    rfl
  · intro k path rest hlen hval
    unfold pkgReadEntries read_length_prefixed_string
    rw [readU32_le32 _ (by omega)]
    simp only [eBind_ok]
    rw [if_neg (by omega)]
    rw [readExact_append]
    simp only [eBind_ok, hval, if_false]
    rfl
  · intro be s hs
    unfold PackageReader.read_from read_length_prefixed_string
    rw [readU32_short hs]
    rfl

/-- Witness for claim C8: each rejection at a concrete input. -/
theorem package_read_from_error_cases_witness :
    PackageReader.read_from true (le32 65 ++ [])
        = .error (.safetyLimit "String length exceeds maximum") ∧
    PackageReader.read_from true (le32 4 ++ ([88, 75, 71, 86] ++ []))
        = .error (.invalidPkgMagic [88, 75, 71, 86]) ∧
    PackageReader.read_from true (le32 4 ++ (pkgvBytes ++ (le32 100001 ++ [])))
        = .error (.safetyLimit "Entry count exceeds maximum") ∧
    pkgReadEntries 1 (le32 4097 ++ [])
        = .error (.safetyLimit "String length exceeds maximum") ∧
    pkgReadEntries 1 (le32 1 ++ ([255] ++ []))
        = .error .stringEncoding ∧
    PackageReader.read_from true [1, 2, 3] = .error .ioUnexpectedEof := by
  obtain ⟨h1, h2, h3, h4, h5, h6⟩ := package_read_from_error_cases
  exact ⟨h1 true 65 [] (by decide) (by decide),
    h2 true [88, 75, 71, 86] [] (by decide) (by decide) (by decide),
    h3 true pkgvBytes 100001 [] (by decide) (by decide) (by decide) (by decide)
      (by decide),
    h4 0 4097 [] (by decide) (by decide),
    h5 0 [255] [] (by decide) (by decide),
    h6 true [1, 2, 3] (by decide)⟩
